import Mathlib

/-!
Verification development for the GoDebtBotTg debt-tracking bot.

The Go program keeps `Debtor` and `Debt` rows in a SQLite database and
drives a per-chat conversation state machine from incoming messages and
inline-button callbacks.  This file gives a shallow embedding of the
data model, the database interaction functions and the two event
handlers (`handleMessage`, `handleCallbackQuery`), and proves
properties about them.

Modelling conventions:
* SQL tables become Lean lists; the one-statement SQL operations become
  pure functions on a `Store` value, with the constraints the program
  actually runs under: UNIQUE(name, chat_id) on debtors is enforced,
  but the declared FOREIGN KEY (debtor_id) REFERENCES debtors(id)
  ON DELETE CASCADE on debts is inert, because the database connection
  is opened with a plain sql.Open and SQLite leaves foreign-key
  enforcement off unless a pragma enables it — so debt inserts never
  fail a foreign-key check and debtor deletion does not cascade.
* `float64` amounts become `Rat`; the claims under study only use
  exact comparison, subtraction and sign tests on amounts.
* The Go package-level maps `userStates`, `currentDebtors` and
  `selectedDebts` become association lists keyed by chat id; a map read
  of a missing key yields Go's zero value, modelled by `Option.getD`
  with the corresponding zero-value records.
* Outbound Telegram messages are presentation; each distinct message is
  modelled by a constructor of `Msg` (payloads keep the data the text
  interpolates where a claim needs it).
-/

namespace DebtBot

/-! ## Dates and parsing -/

/-- Decimal digit test used by the number and date parsers. -/
def isDigit (c : Char) : Bool := '0' ≤ c && c ≤ '9'

/-- Numeric value of a decimal digit character. -/
def digitVal (c : Char) : Nat := c.toNat - '0'.toNat

/-- Value of a list of decimal digit characters, most significant first. -/
def digitsToNat (cs : List Char) : Nat := cs.foldl (fun a c => a * 10 + digitVal c) 0

/-- Model of Go's strconv.ParseFloat(text, 64) restricted to plain decimal
notation: optional sign, integer digits, optional '.' and fraction digits,
at least one digit overall, whole string consumed.  Exponent and
hexadecimal forms accepted by Go are irrelevant to the properties proved
here, which are all conditional on the parse outcome. -/
def parseAmount (s : String) : Option Rat :=
  let cs := s.data
  let signBody : Int × List Char :=
    match cs with
    | '-' :: rest => (-1, rest)
    | '+' :: rest => (1, rest)
    | _ => (1, cs)
  let intPart := signBody.2.takeWhile isDigit
  let rest := signBody.2.dropWhile isDigit
  match rest with
  | [] =>
      if intPart.isEmpty then none
      else some (mkRat (signBody.1 * (digitsToNat intPart : Int)) 1)
  | '.' :: frac =>
      if frac.all isDigit && !(intPart.isEmpty && frac.isEmpty) then
        some (mkRat
          (signBody.1 *
            ((digitsToNat intPart * 10 ^ frac.length + digitsToNat frac : Nat) : Int))
          (10 ^ frac.length))
      else none
  | _ => none

/-- Calendar date, as produced by Go's time.Parse for the bot's layouts. -/
structure Date where
  year : Nat
  month : Nat
  day : Nat
deriving Repr, DecidableEq

/-- Gregorian leap-year rule (Go's time package). -/
def isLeapYear (y : Nat) : Bool := y % 4 = 0 && (y % 100 ≠ 0 || y % 400 = 0)

/-- Number of days in a month, as validated by Go's time.Parse. -/
def daysInMonth (y m : Nat) : Nat :=
  if m = 2 then (if isLeapYear y then 29 else 28)
  else if m = 4 ∨ m = 6 ∨ m = 9 ∨ m = 11 then 30 else 31

/-- Split a character list on a separator character; `[[]]` for the empty
list, mirroring how a date layout walks its separator positions. -/
def splitOnChar (sep : Char) : List Char → List (List Char)
  | [] => [[]]
  | c :: cs =>
      let r := splitOnChar sep cs
      if c = sep then [] :: r
      else
        match r with
        | [] => [[c]]
        | g :: gs => (c :: g) :: gs

/-- Exactly two digits (Go layout element "02" / "01": zero-padded). -/
def parse2 : List Char → Option Nat
  | [a, b] => if isDigit a && isDigit b then some (digitVal a * 10 + digitVal b) else none
  | _ => none

/-- One or two digits (Go layout element "2" / "1"). -/
def parse1or2 : List Char → Option Nat
  | [a] => if isDigit a then some (digitVal a) else none
  | [a, b] => if isDigit a && isDigit b then some (digitVal a * 10 + digitVal b) else none
  | _ => none

/-- Exactly four digits (Go layout element "2006"). -/
def parse4 : List Char → Option Nat
  | [a, b, c, d] =>
      if isDigit a && isDigit b && isDigit c && isDigit d then
        some (((digitVal a * 10 + digitVal b) * 10 + digitVal c) * 10 + digitVal d)
      else none
  | _ => none

/-- Go's two-digit-year expansion: 69..99 map to 19xx, 00..68 to 20xx. -/
def expandYear2 (y : Nat) : Nat := if 69 ≤ y then 1900 + y else 2000 + y

/-- Shape of one of the bot's date layouts: zero-padded vs. flexible
day/month, separator character, four- vs. two-digit year. -/
structure DateFmt where
  padded : Bool
  sep : Char
  year4 : Bool
deriving Repr, DecidableEq

/-- The eight layouts from handleMessage's payment-date states, in source
order: "02.01.2006", "02.01.06", "2.1.2006", "2.1.06", "02-01-2006",
"02-01-06", "2-1-2006", "2-1-06". -/
def dateFormats : List DateFmt :=
  [⟨true, '.', true⟩, ⟨true, '.', false⟩, ⟨false, '.', true⟩, ⟨false, '.', false⟩,
   ⟨true, '-', true⟩, ⟨true, '-', false⟩, ⟨false, '-', true⟩, ⟨false, '-', false⟩]

/-- Model of time.Parse(layout, text) for one of the bot's layouts:
day, separator, month, separator, year, whole string consumed, with Go's
range validation of month and day. -/
def tryParseDate (f : DateFmt) (s : String) : Option Date :=
  match splitOnChar f.sep s.data with
  | [ds, ms, ys] =>
      match (if f.padded then parse2 ds else parse1or2 ds),
            (if f.padded then parse2 ms else parse1or2 ms),
            (if f.year4 then parse4 ys else (parse2 ys).map expandYear2) with
      | some d, some m, some y =>
          if 1 ≤ m ∧ m ≤ 12 ∧ 1 ≤ d ∧ d ≤ daysInMonth y m then some ⟨y, m, d⟩ else none
      | _, _, _ => none
  | _ => none

/-- The payment-date parsing loop: the layouts are tried in order and the
first success wins (the Go loop breaks at the first nil error). -/
def parsePaymentDate (s : String) : Option Date :=
  dateFormats.findSome? (fun f => tryParseDate f s)

/-! ## Ledger store (the two SQLite tables) -/

/-- Row of the debts table. -/
structure Debt where
  id : Nat
  debtorId : Nat
  amount : Rat
  reason : String
deriving Repr, DecidableEq

/-- Row of the debtors table; payment_date and payment_amount are NULLable
(sql.NullTime / sql.NullFloat64). -/
structure Debtor where
  id : Nat
  name : String
  chatId : Int
  paymentDate : Option Date
  paymentAmount : Option Rat
deriving Repr, DecidableEq

/-- The database: both tables plus the AUTOINCREMENT counters. -/
structure Store where
  debtors : List Debtor
  debts : List Debt
  nextDebtorId : Nat
  nextDebtId : Nat
deriving Repr, DecidableEq

/-- Error outcomes of the store operations: the "debtor already exists"
error for the UNIQUE constraint, and sql.ErrNoRows. -/
inductive DbError
  | alreadyExists
  | notFound
deriving Repr, DecidableEq

/-- Freshly initialised database (AUTOINCREMENT ids start at 1). -/
def emptyStore : Store := ⟨[], [], 1, 1⟩

/-- SELECT ... FROM debtors WHERE name = ? AND chat_id = ?  (none models
sql.ErrNoRows). -/
def getDebtorByName (s : Store) (name : String) (chatId : Int) : Option Debtor :=
  s.debtors.find? (fun d => d.name == name && d.chatId == chatId)

/-- SELECT ... FROM debtors WHERE id = ?. -/
def getDebtorByID (s : Store) (id : Nat) : Option Debtor :=
  s.debtors.find? (fun d => d.id == id)

/-- INSERT INTO debtors (name, chat_id); a UNIQUE(name, chat_id) violation
becomes the "debtor already exists" error and leaves the table unchanged. -/
def addDebtor (s : Store) (name : String) (chatId : Int) :
    Except DbError (Debtor × Store) :=
  if s.debtors.any (fun d => d.name == name && d.chatId == chatId) then
    .error .alreadyExists
  else
    let d : Debtor := ⟨s.nextDebtorId, name, chatId, none, none⟩
    .ok (d, { s with debtors := s.debtors ++ [d], nextDebtorId := s.nextDebtorId + 1 })

/-- INSERT INTO debts (debtor_id, amount, reason).  The schema declares
FOREIGN KEY (debtor_id) REFERENCES debtors (id), but foreign-key
enforcement is never enabled on the connection, so the insert succeeds
for any debtor id, existing or not. -/
def addDebt (s : Store) (debtorId : Nat) (amount : Rat) (reason : String) :
    Except DbError Store :=
  .ok { s with
          debts := s.debts ++ [⟨s.nextDebtId, debtorId, amount, reason⟩],
          nextDebtId := s.nextDebtId + 1 }

/-- SELECT ... FROM debtors WHERE chat_id = ?. -/
def listDebtors (s : Store) (chatId : Int) : List Debtor :=
  s.debtors.filter (fun d => d.chatId == chatId)

/-- SELECT ... FROM debts WHERE debtor_id = ?. -/
def listDebts (s : Store) (debtorId : Nat) : List Debt :=
  s.debts.filter (fun d => d.debtorId == debtorId)

/-- SELECT ... FROM debts WHERE id = ?. -/
def getDebtByID (s : Store) (id : Nat) : Option Debt :=
  s.debts.find? (fun d => d.id == id)

/-- UPDATE debts SET amount = ? WHERE id = ?  (no error when no row
matches). -/
def updateDebtAmount (s : Store) (id : Nat) (newAmount : Rat) : Store :=
  { s with debts := s.debts.map (fun d => if d.id == id then { d with amount := newAmount } else d) }

/-- UPDATE debts SET reason = ? WHERE id = ?. -/
def updateDebtReason (s : Store) (id : Nat) (newReason : String) : Store :=
  { s with debts := s.debts.map (fun d => if d.id == id then { d with reason := newReason } else d) }

/-- DELETE FROM debts WHERE id = ?; SQLite's DELETE reports no error when
no row matches, so the call always returns ok. -/
def closeDebt (s : Store) (id : Nat) : Except DbError Store :=
  .ok { s with debts := s.debts.filter (fun d => d.id != id) }

/-- DELETE FROM debtors WHERE id = ?.  The schema declares ON DELETE
CASCADE on debts (debtor_id), but foreign-key enforcement is never
enabled on the connection, so the statement removes only the debtor row
and leaves that debtor's debts behind. -/
def deleteDebtor (s : Store) (id : Nat) : Store :=
  { s with debtors := s.debtors.filter (fun d => d.id != id) }

/-- UPDATE debtors SET payment_date = ? WHERE id = ?. -/
def updateDebtorPaymentDate (s : Store) (id : Nat) (date : Date) : Store :=
  { s with debtors :=
      s.debtors.map (fun d => if d.id == id then { d with paymentDate := some date } else d) }

/-- UPDATE debtors SET payment_amount = ? WHERE id = ?. -/
def updateDebtorPaymentAmount (s : Store) (id : Nat) (a : Rat) : Store :=
  { s with debtors :=
      s.debtors.map (fun d => if d.id == id then { d with paymentAmount := some a } else d) }

/-- UPDATE debtors SET payment_date = NULL WHERE id = ?. -/
def clearDebtorPaymentDate (s : Store) (id : Nat) : Store :=
  { s with debtors :=
      s.debtors.map (fun d => if d.id == id then { d with paymentDate := none } else d) }

/-- UPDATE debtors SET payment_amount = NULL WHERE id = ?. -/
def clearDebtorPaymentAmount (s : Store) (id : Nat) : Store :=
  { s with debtors :=
      s.debtors.map (fun d => if d.id == id then { d with paymentAmount := none } else d) }

/-- Go calls some store functions discarding the error (e.g. the
closeDebt call inside the subtraction handler); on error the store is
simply left as it was. -/
def goUnwrapStore (s : Store) : Except DbError Store → Store
  | .ok s' => s'
  | .error _ => s

/-! ## Conversation state -/

/-- The conversation-state constants from main.go (StateIdle is also the
value a missing map entry reads as). -/
inductive ConvState
  | idle
  | addingDebtorName
  | addingDebtReason
  | addingDebtAmount
  | editingChooseDebt
  | editingChooseWhatToEdit
  | editingAmount
  | editingReason
  | confirmingCloseDebt
  | subtractingFromDebt
  | confirmingDeleteDebtor
  | settingPaymentDate
  | settingPaymentAmount
  | editingPaymentDate
  | editingPaymentAmount
deriving Repr, DecidableEq

/-- Association list standing in for one of the Go package-level maps
keyed by chat id. -/
abbrev ChatMap (α : Type) := List (Int × α)

/-- Map read; none models a missing key. -/
def mapGet {α : Type} (m : ChatMap α) (k : Int) : Option α :=
  (m.find? (fun p => p.1 == k)).map (fun p => p.2)

/-- Map write (replaces any previous entry for the key). -/
def mapSet {α : Type} (m : ChatMap α) (k : Int) (v : α) : ChatMap α :=
  (k, v) :: m.filter (fun p => p.1 != k)

/-- Map delete. -/
def mapDel {α : Type} (m : ChatMap α) (k : Int) : ChatMap α :=
  m.filter (fun p => p.1 != k)

/-- Go's zero value for Debtor, read from a missing map key. -/
def defaultDebtor : Debtor := ⟨0, "", 0, none, none⟩

/-- Go's zero value for Debt. -/
def defaultDebt : Debt := ⟨0, 0, 0, ""⟩

/-- Whole-program state: the database plus the three per-chat maps. -/
structure BotState where
  store : Store
  userStates : ChatMap ConvState
  currentDebtors : ChatMap Debtor
  selectedDebts : ChatMap Debt
deriving Repr, DecidableEq

/-- State at process start: fresh database, empty maps. -/
def initBot : BotState := ⟨emptyStore, [], [], []⟩

/-- clearUserState: delete the chat's entries from all three maps. -/
def clearUserState (b : BotState) (chatId : Int) : BotState :=
  { b with userStates := mapDel b.userStates chatId,
           currentDebtors := mapDel b.currentDebtors chatId,
           selectedDebts := mapDel b.selectedDebts chatId }

/-! ## Outbound messages -/

/-- One outbound Telegram message, identified by which send/edit site in
the source produced it; payloads keep the interpolated data where a
property needs it.  Rendering (Markdown, keyboards) is presentation and
is not modelled. -/
inductive Msg
  | welcome
  | helpText
  | unknownCommand
  | promptDebtorName
  | debtorExistsReprompt
  | errorAddingDebtor
  | promptDebtReason (name : String)
  | promptDebtAmount (name : String) (reason : String)
  | invalidDebtAmount
  | errorAddingDebt
  | debtAdded (name : String) (amount : Rat) (reason : String)
  | invalidAmount
  | amountUpdated
  | reasonUpdated
  | invalidSubtractAmount
  | subtractExceedsDebt
  | debtFullySettled (amount : Rat) (reason : String)
  | subtracted (sub : Rat) (remaining : Rat)
  | invalidDateFormat
  | paymentDateSet (name : String) (d : Date)
  | paymentDateUpdated (d : Date)
  | invalidPaymentAmount
  | paymentAmountSet (name : String) (a : Rat)
  | paymentAmountUpdated
  | paymentDateCleared
  | paymentAmountCleared
  | debtorNotFound
  | confirmCloseDebt (amount : Rat) (reason : String)
  | debtClosed
  | errorClosingDebt
  | operationCancelled
  | chooseWhatToEdit
  | promptNewAmount
  | promptNewReason
  | promptSubtractAmount (amount : Rat)
  | confirmDeleteDebtor (name : String)
  | debtorDeleted (name : String)
  | errorDeletingDebtor
  | promptPaymentDate
  | promptPaymentAmount
  | promptNewPaymentDate
  | promptNewPaymentAmount
  | noDebtors
  | defaultHelp
  | debtorsList (chatId : Int)
  | csvExport (chatId : Int)
  | debtorDetails (debtorId : Nat)
deriving Repr, DecidableEq

/-- showDebtorDetails: re-fetch the debtor by id; on sql.ErrNoRows report
"not found", otherwise store the fresh row as the chat's current debtor
and render the details view (debt list, recomputed total and buttons are
presentation, carried as the view's debtor id). -/
def showDebtorDetails (b : BotState) (chatId : Int) (debtorId : Nat) :
    BotState × List Msg :=
  match getDebtorByID b.store debtorId with
  | none => (b, [.debtorNotFound])
  | some debtor =>
      ({ b with currentDebtors := mapSet b.currentDebtors chatId debtor },
       [.debtorDetails debtorId])

/-! ## handleMessage -/

/-- Tail of handleMessage's StateAddingDebtorName case once a debtor row
is in hand (found or freshly inserted): remember it as the chat's
current debtor, move to StateAddingDebtReason and prompt for the
reason. -/
def afterDebtorResolved (b : BotState) (chatId : Int) (debtor : Debtor) :
    BotState × List Msg :=
  ({ b with currentDebtors := mapSet b.currentDebtors chatId debtor,
            userStates := mapSet b.userStates chatId .addingDebtReason },
   [.promptDebtReason debtor.name])

/-- The `if err != nil` block after the addDebtor call in
handleMessage's StateAddingDebtorName case: the "debtor already exists"
error re-prompts for another name and returns with every map untouched;
any other error reports a generic failure and clears the chat's state;
success continues with the new row. -/
def onAddDebtorOutcome (b : BotState) (chatId : Int) :
    Except DbError (Debtor × Store) → BotState × List Msg
  | .error .alreadyExists => (b, [.debtorExistsReprompt])
  | .error _ => (clearUserState b chatId, [.errorAddingDebtor])
  | .ok (d, s') => afterDebtorResolved { b with store := s' } chatId d

/-- handleMessage: dispatch an incoming free-text message on the chat's
conversation state (a missing userStates entry reads as StateIdle). -/
def handleMessage (b : BotState) (chatId : Int) (text : String) :
    BotState × List Msg :=
  match (mapGet b.userStates chatId).getD .idle with
  | .addingDebtorName =>
      match getDebtorByName b.store text chatId with
      | none => onAddDebtorOutcome b chatId (addDebtor b.store text chatId)
      | some debtor => afterDebtorResolved b chatId debtor
  | .addingDebtReason =>
      let cur := (mapGet b.currentDebtors chatId).getD defaultDebtor
      ({ b with
           selectedDebts :=
             mapSet b.selectedDebts chatId { defaultDebt with debtorId := cur.id, reason := text },
           userStates := mapSet b.userStates chatId .addingDebtAmount },
       [.promptDebtAmount cur.name text])
  | .addingDebtAmount =>
      match parseAmount text with
      | none => (b, [.invalidDebtAmount])
      | some amount =>
          if amount ≤ 0 then (b, [.invalidDebtAmount])
          else
            let cur := (mapGet b.currentDebtors chatId).getD defaultDebtor
            let reason := ((mapGet b.selectedDebts chatId).getD defaultDebt).reason
            match addDebt b.store cur.id amount reason with
            | .error _ => (clearUserState b chatId, [.errorAddingDebt])
            | .ok s' =>
                (clearUserState { b with store := s' } chatId,
                 [.debtAdded cur.name amount reason])
  | .editingAmount =>
      match parseAmount text with
      | none => (b, [.invalidAmount])
      | some amount =>
          if amount ≤ 0 then (b, [.invalidAmount])
          else
            let sel := (mapGet b.selectedDebts chatId).getD defaultDebt
            let cur := (mapGet b.currentDebtors chatId).getD defaultDebtor
            let r := showDebtorDetails { b with store := updateDebtAmount b.store sel.id amount }
                       chatId cur.id
            (clearUserState r.1 chatId, .amountUpdated :: r.2)
  | .editingReason =>
      let sel := (mapGet b.selectedDebts chatId).getD defaultDebt
      let cur := (mapGet b.currentDebtors chatId).getD defaultDebtor
      let r := showDebtorDetails { b with store := updateDebtReason b.store sel.id text }
                 chatId cur.id
      (clearUserState r.1 chatId, .reasonUpdated :: r.2)
  | .subtractingFromDebt =>
      match parseAmount text with
      | none => (b, [.invalidSubtractAmount])
      | some amountToSubtract =>
          if amountToSubtract ≤ 0 then (b, [.invalidSubtractAmount])
          else
            let debt := (mapGet b.selectedDebts chatId).getD defaultDebt
            if debt.amount < amountToSubtract then (b, [.subtractExceedsDebt])
            else
              let newAmount := debt.amount - amountToSubtract
              let s1 := updateDebtAmount b.store debt.id newAmount
              if newAmount = 0 then
                let s2 := goUnwrapStore s1 (closeDebt s1 debt.id)
                let r := showDebtorDetails { b with store := s2 } chatId debt.debtorId
                (clearUserState r.1 chatId, .debtFullySettled debt.amount debt.reason :: r.2)
              else
                let r := showDebtorDetails { b with store := s1 } chatId debt.debtorId
                (clearUserState r.1 chatId, .subtracted amountToSubtract newAmount :: r.2)
  | .settingPaymentDate =>
      match parsePaymentDate text with
      | none => (b, [.invalidDateFormat])
      | some t =>
          let cur := (mapGet b.currentDebtors chatId).getD defaultDebtor
          let r := showDebtorDetails { b with store := updateDebtorPaymentDate b.store cur.id t }
                     chatId cur.id
          (clearUserState r.1 chatId, .paymentDateSet cur.name t :: r.2)
  | .settingPaymentAmount =>
      match parseAmount text with
      | none => (b, [.invalidPaymentAmount])
      | some amount =>
          if amount ≤ 0 then (b, [.invalidPaymentAmount])
          else
            let cur := (mapGet b.currentDebtors chatId).getD defaultDebtor
            let b1 := clearUserState
                        { b with store := updateDebtorPaymentAmount b.store cur.id amount } chatId
            let r := showDebtorDetails b1 chatId cur.id
            (r.1, .paymentAmountSet cur.name amount :: r.2)
  | .editingPaymentDate =>
      match parsePaymentDate text with
      | none => (b, [.invalidDateFormat])
      | some t =>
          let cur := (mapGet b.currentDebtors chatId).getD defaultDebtor
          let r := showDebtorDetails { b with store := updateDebtorPaymentDate b.store cur.id t }
                     chatId cur.id
          (clearUserState r.1 chatId, .paymentDateUpdated t :: r.2)
  | .editingPaymentAmount =>
      match parseAmount text with
      | none => (b, [.invalidPaymentAmount])
      | some amount =>
          if amount ≤ 0 then (b, [.invalidPaymentAmount])
          else
            let cur := (mapGet b.currentDebtors chatId).getD defaultDebtor
            let b1 := clearUserState
                        { b with store := updateDebtorPaymentAmount b.store cur.id amount } chatId
            let r := showDebtorDetails b1 chatId cur.id
            (r.1, .paymentAmountUpdated :: r.2)
  | _ => (clearUserState b chatId, [.defaultHelp])

/-! ## handleCallbackQuery -/

/-- Parsed callback data.  The constructors correspond to the callback
strings dispatched in handleCallbackQuery: "select_debtor:<id>",
"close_debt:<id>", "confirm_close:<id>", "cancel_operation",
"edit_debt:<id>", "edit_amount:<id>", "edit_reason:<id>",
"subtract_from_debt:<id>", "add_debt_to_existing", "delete_debtor",
"confirm_delete_debtor", "set_payment_date", "set_payment_amount",
"clear_payment_date", "clear_payment_amount", "edit_payment_date" and
"edit_payment_amount".  The numeric part is parsed by strconv.Atoi
before any effect; a malformed id makes the handler return with no
effect at all, so such events are not modelled. -/
inductive CbData
  | selectDebtor (debtorId : Nat)
  | closeDebtBtn (debtId : Nat)
  | confirmClose (debtId : Nat)
  | cancelOperation
  | editDebt (debtId : Nat)
  | editAmountBtn (debtId : Nat)
  | editReasonBtn (debtId : Nat)
  | subtractBtn (debtId : Nat)
  | addDebtToExisting
  | deleteDebtorBtn
  | confirmDeleteDebtorBtn
  | setPaymentDateBtn
  | setPaymentAmountBtn
  | clearPaymentDateBtn
  | clearPaymentAmountBtn
  | editPaymentDateBtn
  | editPaymentAmountBtn
deriving Repr, DecidableEq

/-- handleCallbackQuery: dispatch a button press on its payload. -/
def handleCallbackQuery (b : BotState) (chatId : Int) (data : CbData) :
    BotState × List Msg :=
  match data with
  | .selectDebtor debtorId =>
      match getDebtorByID b.store debtorId with
      | none => (clearUserState b chatId, [.debtorNotFound])
      | some debtor =>
          let b1 := { b with currentDebtors := mapSet b.currentDebtors chatId debtor }
          showDebtorDetails (clearUserState b1 chatId) chatId debtorId
  | .closeDebtBtn debtId =>
      match getDebtByID b.store debtId with
      | none => (b, [])
      | some debt =>
          ({ b with selectedDebts := mapSet b.selectedDebts chatId debt,
                    userStates := mapSet b.userStates chatId .confirmingCloseDebt },
           [.confirmCloseDebt debt.amount debt.reason])
  | .confirmClose debtId =>
      let cur := (mapGet b.currentDebtors chatId).getD defaultDebtor
      match closeDebt b.store debtId with
      | .error _ =>
          let r := showDebtorDetails b chatId cur.id
          (clearUserState r.1 chatId, .errorClosingDebt :: r.2)
      | .ok s' =>
          let r := showDebtorDetails { b with store := s' } chatId cur.id
          (clearUserState r.1 chatId, .debtClosed :: r.2)
  | .cancelOperation =>
      let b1 := clearUserState b chatId
      match mapGet b1.currentDebtors chatId with
      | some cur =>
          let r := showDebtorDetails b1 chatId cur.id
          (r.1, .operationCancelled :: r.2)
      | none => (b1, [.operationCancelled])
  | .editDebt debtId =>
      match getDebtByID b.store debtId with
      | none => (b, [])
      | some debt =>
          ({ b with selectedDebts := mapSet b.selectedDebts chatId debt,
                    userStates := mapSet b.userStates chatId .editingChooseWhatToEdit },
           [.chooseWhatToEdit])
  | .editAmountBtn debtId =>
      ({ b with selectedDebts := mapSet b.selectedDebts chatId { defaultDebt with id := debtId },
                userStates := mapSet b.userStates chatId .editingAmount },
       [.promptNewAmount])
  | .editReasonBtn debtId =>
      ({ b with selectedDebts := mapSet b.selectedDebts chatId { defaultDebt with id := debtId },
                userStates := mapSet b.userStates chatId .editingReason },
       [.promptNewReason])
  | .subtractBtn debtId =>
      match getDebtByID b.store debtId with
      | none => (b, [])
      | some debt =>
          ({ b with selectedDebts := mapSet b.selectedDebts chatId debt,
                    userStates := mapSet b.userStates chatId .subtractingFromDebt },
           [.promptSubtractAmount debt.amount])
  | .addDebtToExisting =>
      let cur := (mapGet b.currentDebtors chatId).getD defaultDebtor
      ({ b with userStates := mapSet b.userStates chatId .addingDebtReason },
       [.promptDebtReason cur.name])
  | .deleteDebtorBtn =>
      let cur := (mapGet b.currentDebtors chatId).getD defaultDebtor
      ({ b with userStates := mapSet b.userStates chatId .confirmingDeleteDebtor },
       [.confirmDeleteDebtor cur.name])
  | .confirmDeleteDebtorBtn =>
      let cur := (mapGet b.currentDebtors chatId).getD defaultDebtor
      (clearUserState { b with store := deleteDebtor b.store cur.id } chatId,
       [.debtorDeleted cur.name])
  | .setPaymentDateBtn =>
      ({ b with userStates := mapSet b.userStates chatId .settingPaymentDate },
       [.promptPaymentDate])
  | .setPaymentAmountBtn =>
      ({ b with userStates := mapSet b.userStates chatId .settingPaymentAmount },
       [.promptPaymentAmount])
  | .clearPaymentDateBtn =>
      let cur := (mapGet b.currentDebtors chatId).getD defaultDebtor
      let r := showDebtorDetails { b with store := clearDebtorPaymentDate b.store cur.id }
                 chatId cur.id
      (clearUserState r.1 chatId, .paymentDateCleared :: r.2)
  | .clearPaymentAmountBtn =>
      let cur := (mapGet b.currentDebtors chatId).getD defaultDebtor
      let r := showDebtorDetails { b with store := clearDebtorPaymentAmount b.store cur.id }
                 chatId cur.id
      (clearUserState r.1 chatId, .paymentAmountCleared :: r.2)
  | .editPaymentDateBtn =>
      ({ b with userStates := mapSet b.userStates chatId .editingPaymentDate },
       [.promptNewPaymentDate])
  | .editPaymentAmountBtn =>
      ({ b with userStates := mapSet b.userStates chatId .editingPaymentAmount },
       [.promptNewPaymentAmount])

/-! ## Commands and the event loop -/

/-- The slash commands routed in main's update loop. -/
inductive Cmd
  | start
  | add
  | debts
  | help
  | exportcsv
  | unknown
deriving Repr, DecidableEq

/-- Command handlers: every one starts by clearing the chat's state;
only /add then enters a dialog state.  /debts and /exportcsv read the
store (the rendered list and CSV are presentation). -/
def handleCommand (b : BotState) (chatId : Int) (c : Cmd) : BotState × List Msg :=
  match c with
  | .start => (clearUserState b chatId, [.welcome])
  | .add =>
      let b1 := clearUserState b chatId
      ({ b1 with userStates := mapSet b1.userStates chatId .addingDebtorName },
       [.promptDebtorName])
  | .debts =>
      let b1 := clearUserState b chatId
      if (listDebtors b1.store chatId).isEmpty then (b1, [.noDebtors])
      else (b1, [.debtorsList chatId])
  | .help => (clearUserState b chatId, [.helpText])
  | .exportcsv => (clearUserState b chatId, [.csvExport chatId])
  | .unknown => (clearUserState b chatId, [.unknownCommand])

/-- One inbound update, as routed by main's update loop. -/
inductive Event
  | cmd (chatId : Int) (c : Cmd)
  | msg (chatId : Int) (text : String)
  | cb (chatId : Int) (data : CbData)

/-- Process one update. -/
def step (b : BotState) (e : Event) : BotState × List Msg :=
  match e with
  | .cmd chatId c => handleCommand b chatId c
  | .msg chatId text => handleMessage b chatId text
  | .cb chatId data => handleCallbackQuery b chatId data

/-- Process a sequence of updates in arrival order. -/
def run (b : BotState) (es : List Event) : BotState :=
  es.foldl (fun b e => (step b e).1) b

/-! ## Invariant and claim fixtures -/

/-- Every debt row references an existing debtor row. -/
def storeInv (s : Store) : Prop :=
  ∀ d ∈ s.debts, ∃ t ∈ s.debtors, t.id = d.debtorId

/-- Store with one debtor owning two debts, exercising debtor deletion. -/
def c1Store : Store :=
  ⟨[⟨1, "Alex", 0, none, none⟩], [⟨1, 1, 100, "lunch"⟩, ⟨2, 1, 50, "coffee"⟩], 2, 3⟩

/-- Ordinary dialog sequence for chat 0: the /add flow creates debtor
"Alex" with one debt of 100, then the debtor is selected and deleted via
the delete-debtor confirmation. -/
def c2Events : List Event :=
  [.cmd 0 .add, .msg 0 "Alex", .msg 0 "lunch", .msg 0 "100",
   .cb 0 (.selectDebtor 1), .cb 0 .deleteDebtorBtn, .cb 0 .confirmDeleteDebtorBtn]

/-- Chat 0 focused on a debt of amount 100, awaiting a subtraction. -/
def c4Bot : BotState :=
  ⟨⟨[⟨1, "Alex", 0, none, none⟩], [⟨1, 1, 100, "lunch"⟩], 2, 2⟩,
   [(0, .subtractingFromDebt)], [(0, ⟨1, "Alex", 0, none, none⟩)],
   [(0, ⟨1, 1, 100, "lunch"⟩)]⟩

/-- Store with one debtor owning a single debt with id 1. -/
def c6Store : Store := ⟨[⟨1, "Alex", 0, none, none⟩], [⟨1, 1, 50, "x"⟩], 2, 2⟩

/-- The same store after that debt is deleted. -/
def c6StoreAfter : Store := ⟨[⟨1, "Alex", 0, none, none⟩], [], 2, 2⟩

/-- Chat 0 in AwaitingDebtorName with debtor "Alex" already present. -/
def c7Bot : BotState :=
  ⟨⟨[⟨1, "Alex", 0, none, none⟩], [], 2, 1⟩, [(0, .addingDebtorName)], [], []⟩

/-- Chat 0 focused on a debt of amount 100, awaiting a subtraction
amount (for the C3 witness). -/
def c3Bot : BotState :=
  ⟨⟨[⟨1, "Alex", 0, none, none⟩], [⟨1, 1, 100, "lunch"⟩], 2, 2⟩,
   [(0, .subtractingFromDebt)], [(0, ⟨1, "Alex", 0, none, none⟩)],
   [(0, ⟨1, 1, 100, "lunch"⟩)]⟩

/-- Chat 0 awaiting a debt amount (for the C8 witness). -/
def c8Bot : BotState := ⟨emptyStore, [(0, .addingDebtAmount)], [], []⟩

/-- Chat 0 awaiting a payment date (for the C8 witness). -/
def c8BotDate : BotState := ⟨emptyStore, [(0, .settingPaymentDate)], [], []⟩

/-- Chat 0 focused on debtor 1 and awaiting a payment date (for the C9
witness). -/
def c9Bot : BotState :=
  ⟨⟨[⟨1, "Alex", 0, none, none⟩], [], 2, 1⟩, [(0, .settingPaymentDate)],
   [(0, ⟨1, "Alex", 0, none, none⟩)], []⟩

/-- The bot state after chat `chatId` presses the select-debtor button
for `debtorId`. -/
def c10After (b : BotState) (chatId : Int) (debtorId : Nat) : BotState :=
  (handleCallbackQuery b chatId (.selectDebtor debtorId)).1

/-- Store and chat for the C10 witness. -/
def c10Bot : BotState :=
  ⟨⟨[⟨1, "Alex", 0, none, none⟩], [], 2, 1⟩, [(5, .confirmingCloseDebt)], [], []⟩

/-! ## Basic lemmas about the maps and the store -/

lemma mapGet_set_self {α : Type} (m : ChatMap α) (k : Int) (v : α) :
    mapGet (mapSet m k v) k = some v := by
  simp [mapGet, mapSet, List.find?]

lemma mapGet_del_self {α : Type} (m : ChatMap α) (k : Int) :
    mapGet (mapDel m k) k = none := by
  have hf : (m.filter (fun p => p.1 != k)).find? (fun p => p.1 == k) = none := by
    rw [List.find?_eq_none]
    intro p hp
    have h2 := (List.mem_filter.mp hp).2
    simp only [bne_iff_ne, ne_eq] at h2
    simp [h2]
  simp [mapGet, mapDel, hf]

lemma clearUserState_store (b : BotState) (c : Int) :
    (clearUserState b c).store = b.store := rfl

lemma showDebtorDetails_store (b : BotState) (c : Int) (i : Nat) :
    ((showDebtorDetails b c i).1).store = b.store := by
  unfold showDebtorDetails
  cases getDebtorByID b.store i <;> rfl

lemma getDebtByID_filter_ne (l : List Debt) (i : Nat) :
    (l.filter (fun d => d.id != i)).find? (fun d => d.id == i) = none := by
  rw [List.find?_eq_none]
  intro d hd
  have h2 := (List.mem_filter.mp hd).2
  simp only [bne_iff_ne, ne_eq] at h2
  simp [h2]

lemma getDebtByID_updateDebtAmount_self (s : Store) (i : Nat) (a : Rat) :
    getDebtByID (updateDebtAmount s i a) i
      = (getDebtByID s i).map (fun d => { d with amount := a }) := by
  unfold getDebtByID updateDebtAmount
  rw [List.find?_map]
  have hp : ((fun d : Debt => d.id == i) ∘
        fun d : Debt => if d.id == i then { d with amount := a } else d)
      = (fun d : Debt => d.id == i) := by
    funext d
    by_cases h : d.id = i <;> simp [Function.comp, h]
  rw [hp]
  cases hf : List.find? (fun d : Debt => d.id == i) s.debts with
  | none => rfl
  | some d =>
      have hd := List.find?_some hf
      simp only [beq_iff_eq] at hd
      simp [hd]

/-! ## Claims -/

/-- C1 (behavior of the code at the failing input): deleting debtor 1,
who owns two debts, removes only the debtor row — because foreign-key
enforcement is never enabled, the declared ON DELETE CASCADE does not
fire, so afterwards the debtor lookup is not-found yet listing the
deleted debtor's debts still returns both rows (the cascade the claim
requires did not happen). -/
theorem spec_c1_code_behavior :
    getDebtorByID (deleteDebtor c1Store 1) 1 = none ∧
    listDebts (deleteDebtor c1Store 1) 1 = c1Store.debts ∧
    listDebts (deleteDebtor c1Store 1) 1 ≠ [] := by
  decide

/-- C2 (behavior of the code at the failing sequence): after adding a
debt for "Alex" through the /add dialog and then deleting the debtor
through the delete-debtor confirmation, the debtors table is empty while
the debt row persists — an orphan debt referencing no live debtor, so
the referential-integrity invariant is violated by an ordinary event
sequence. -/
theorem spec_c2_code_behavior :
    (run initBot c2Events).store.debtors = [] ∧
    (run initBot c2Events).store.debts = [⟨1, 1, 100, "lunch"⟩] ∧
    ¬ storeInv (run initBot c2Events).store := by
  have hdebtors : (run initBot c2Events).store.debtors = [] := by decide
  have hdebts : (run initBot c2Events).store.debts = [⟨1, 1, 100, "lunch"⟩] := by decide
  refine ⟨hdebtors, hdebts, ?_⟩
  intro h
  obtain ⟨t, ht, -⟩ := h ⟨1, 1, 100, "lunch"⟩ (by rw [hdebts]; exact List.mem_singleton.mpr rfl)
  rw [hdebtors] at ht
  cases ht

/-- C4: in the SubtractingFromDebt state, a parsed positive amount
strictly greater than the focused debt's amount is rejected: the handler
returns with the whole state (store, conversation state, focus maps)
unchanged and only the corrective message emitted. -/
theorem spec_c4 (b : BotState) (chatId : Int) (text : String) (f : Debt) (a : Rat)
    (hst : mapGet b.userStates chatId = some .subtractingFromDebt)
    (hsel : mapGet b.selectedDebts chatId = some f)
    (hp : parseAmount text = some a)
    (hpos : 0 < a)
    (hgt : f.amount < a) :
    handleMessage b chatId text = (b, [.subtractExceedsDebt]) := by
  unfold handleMessage
  rw [hst]
  dsimp only [Option.getD]
  rw [hp]
  dsimp only
  rw [if_neg (not_le.mpr hpos), hsel]
  dsimp only [Option.getD]
  rw [if_pos hgt]

/-- Witness for C4: subtracting 150 from a debt of 100 is rejected. -/
theorem spec_c4_witness :
    handleMessage c4Bot 0 "150" = (c4Bot, [.subtractExceedsDebt]) :=
  spec_c4 c4Bot 0 "150" ⟨1, 1, 100, "lunch"⟩ 150 (by decide) (by decide) (by decide)
    (by decide) (by decide)

/-- C5 (behavior of the code at the failing input): pressing an
edit-amount button for a debt id that is absent from the store performs
no lookup of that id at all — the chat is moved into the EditingAmount
state focused on the dangling id, only the new-amount prompt is emitted,
and the user is never told the item is gone nor returned to Idle. -/
theorem spec_c5_code_behavior :
    getDebtByID initBot.store 7 = none ∧
    (handleCallbackQuery initBot 0 (.editAmountBtn 7)).1.userStates
      = [(0, ConvState.editingAmount)] ∧
    mapGet (handleCallbackQuery initBot 0 (.editAmountBtn 7)).1.selectedDebts 0
      = some { defaultDebt with id := 7 } ∧
    (handleCallbackQuery initBot 0 (.editAmountBtn 7)).2 = [Msg.promptNewAmount] := by
  decide

/-- C6 counterexample: deleting debt 1 twice succeeds silently both
times; the second call does not report NotFound (DELETE with no matching
row is not an error). -/
theorem spec_c6_counterexample :
    closeDebt c6Store 1 = .ok c6StoreAfter ∧
    closeDebt c6StoreAfter 1 = .ok c6StoreAfter ∧
    closeDebt c6StoreAfter 1 ≠ .error DbError.notFound := by
  refine ⟨rfl, rfl, ?_⟩
  intro h
  exact Except.noConfusion h

/-- C6 amended: when exactly one debt row has the given id, closeDebt
removes exactly that row (the count drops by one, the id no longer
resolves, all other debts survive) and a second call on the same id is a
silent no-op reporting success rather than NotFound. -/
theorem spec_c6_amended (s : Store) (i : Nat)
    (hone : (s.debts.filter (fun d => d.id == i)).length = 1) :
    ∃ s', closeDebt s i = .ok s' ∧
      s'.debts.length + 1 = s.debts.length ∧
      getDebtByID s' i = none ∧
      (∀ d ∈ s.debts, d.id ≠ i → d ∈ s'.debts) ∧
      closeDebt s' i = .ok s' := by
  refine ⟨{ s with debts := s.debts.filter (fun d => d.id != i) }, rfl, ?_, ?_, ?_, ?_⟩
  · have hlen := List.length_eq_length_filter_add (l := s.debts) (fun d => d.id == i)
    rw [hlen, hone, Nat.add_comm]
    rfl
  · exact getDebtByID_filter_ne s.debts i
  · intro d hd hne
    exact List.mem_filter.mpr ⟨hd, by simp [hne]⟩
  · unfold closeDebt
    congr 1
    have : (s.debts.filter (fun d => d.id != i)).filter (fun d => d.id != i)
        = s.debts.filter (fun d => d.id != i) := by
      apply List.filter_eq_self.mpr
      intro d hd
      exact (List.mem_filter.mp hd).2
    exact congrArg (fun l => { s with debts := l }) this

/-- Witness for the amended C6 at a concrete store. -/
theorem spec_c6_amended_witness :
    ∃ s', closeDebt c6Store 1 = .ok s' ∧
      s'.debts.length + 1 = c6Store.debts.length ∧
      getDebtByID s' 1 = none ∧
      (∀ d ∈ c6Store.debts, d.id ≠ 1 → d ∈ s'.debts) ∧
      closeDebt s' 1 = .ok s' :=
  spec_c6_amended c6Store 1 (by decide)

/-- C7: a second debtor with a name already present in the chat is
rejected by the store with the already-exists domain error; the handler
branch receiving that error re-prompts for a different name with every
map (hence the AwaitingDebtorName state) untouched; and entering a
duplicate name while in AwaitingDebtorName never crashes and leaves the
store, including the first debtor, unchanged. -/
theorem spec_c7 (b : BotState) (chatId : Int) (name : String) (d0 : Debtor)
    (hst : mapGet b.userStates chatId = some .addingDebtorName)
    (hdup : getDebtorByName b.store name chatId = some d0) :
    addDebtor b.store name chatId = .error .alreadyExists ∧
    onAddDebtorOutcome b chatId (.error .alreadyExists) = (b, [.debtorExistsReprompt]) ∧
    (handleMessage b chatId name).1.store = b.store ∧
    d0 ∈ (handleMessage b chatId name).1.store.debtors := by
  have hmem := List.mem_of_find?_eq_some hdup
  have hpred := List.find?_some hdup
  have hm : handleMessage b chatId name = afterDebtorResolved b chatId d0 := by
    unfold handleMessage
    rw [hst]
    dsimp only [Option.getD]
    rw [hdup]
  refine ⟨?_, rfl, ?_, ?_⟩
  · unfold addDebtor
    rw [if_pos (List.any_eq_true.mpr ⟨d0, hmem, hpred⟩)]
  · rw [hm]
    rfl
  · rw [hm]
    exact hmem

/-- Witness for C7 with the duplicate name "Alex". -/
theorem spec_c7_witness :
    addDebtor c7Bot.store "Alex" 0 = .error .alreadyExists ∧
    onAddDebtorOutcome c7Bot 0 (.error .alreadyExists) = (c7Bot, [.debtorExistsReprompt]) ∧
    (handleMessage c7Bot 0 "Alex").1.store = c7Bot.store ∧
    (⟨1, "Alex", 0, none, none⟩ : Debtor) ∈ (handleMessage c7Bot 0 "Alex").1.store.debtors :=
  spec_c7 c7Bot 0 "Alex" ⟨1, "Alex", 0, none, none⟩ (by decide) (by decide)

/-- C3: in the SubtractingFromDebt state, with the focused debt's cached
copy agreeing with its stored row, entering a parsed positive amount
a ≤ d (the debt's amount) yields a stored debt of amount d − a when
d − a > 0, and deletes the debt entirely when d − a = 0, so no
zero-amount debt persists once the event is processed; in both cases the
chat's conversation state returns to the Idle baseline. -/
theorem spec_c3 (b : BotState) (chatId : Int) (text : String) (f : Debt) (a : Rat)
    (hst : mapGet b.userStates chatId = some .subtractingFromDebt)
    (hsel : mapGet b.selectedDebts chatId = some f)
    (hcur : getDebtByID b.store f.id = some f)
    (hp : parseAmount text = some a)
    (hpos : 0 < a)
    (hle : a ≤ f.amount) :
    (0 < f.amount - a →
      getDebtByID ((handleMessage b chatId text).1).store f.id
        = some { f with amount := f.amount - a }) ∧
    (f.amount - a = 0 →
      getDebtByID ((handleMessage b chatId text).1).store f.id = none) ∧
    mapGet ((handleMessage b chatId text).1).userStates chatId = none := by
  unfold handleMessage
  rw [hst]
  dsimp only [Option.getD]
  rw [hp]
  dsimp only
  rw [if_neg (not_le.mpr hpos), hsel]
  dsimp only [Option.getD]
  rw [if_neg (not_lt.mpr hle)]
  by_cases hz : f.amount - a = 0
  · rw [if_pos hz]
    refine ⟨?_, ?_, ?_⟩
    · intro habs
      rw [hz] at habs
      exact absurd habs (lt_irrefl 0)
    · intro _
      rw [clearUserState_store, showDebtorDetails_store]
      simp only [closeDebt, goUnwrapStore]
      exact getDebtByID_filter_ne (updateDebtAmount b.store f.id (f.amount - a)).debts f.id
    · exact mapGet_del_self _ chatId
  · rw [if_neg hz]
    refine ⟨?_, ?_, ?_⟩
    · intro _
      rw [clearUserState_store, showDebtorDetails_store,
        getDebtByID_updateDebtAmount_self, hcur]
      rfl
    · intro habs
      exact absurd habs hz
    · exact mapGet_del_self _ chatId

/-- Witness for C3: subtracting the full amount 100 settles the debt. -/
theorem spec_c3_witness :
    (0 < (100 : Rat) - 100 →
      getDebtByID ((handleMessage c3Bot 0 "100").1).store 1
        = some { id := 1, debtorId := 1, amount := (100 : Rat) - 100, reason := "lunch" }) ∧
    ((100 : Rat) - 100 = 0 →
      getDebtByID ((handleMessage c3Bot 0 "100").1).store 1 = none) ∧
    mapGet ((handleMessage c3Bot 0 "100").1).userStates 0 = none :=
  spec_c3 c3Bot 0 "100" ⟨1, 1, 100, "lunch"⟩ 100 (by decide) (by decide) (by decide)
    (by decide) (by decide) (by decide)

/-- C8: in every numeric-accepting conversation state (debt amount, edit
amount, subtraction amount, payment amount set and edit), input that
does not parse to a positive number leaves the whole bot state — store,
conversation state and both focus maps — unchanged and emits a
corrective prompt; likewise the two date-accepting states on input no
date layout matches.  Invalid input is never coerced into a mutation. -/
theorem spec_c8 :
    (∀ (b : BotState) (chatId : Int) (text : String) (st : ConvState),
      mapGet b.userStates chatId = some st →
      st ∈ [ConvState.addingDebtAmount, ConvState.editingAmount,
            ConvState.subtractingFromDebt, ConvState.settingPaymentAmount,
            ConvState.editingPaymentAmount] →
      (parseAmount text = none ∨ ∃ a, parseAmount text = some a ∧ a ≤ 0) →
      (handleMessage b chatId text).1 = b ∧ (handleMessage b chatId text).2 ≠ []) ∧
    (∀ (b : BotState) (chatId : Int) (text : String) (st : ConvState),
      mapGet b.userStates chatId = some st →
      st ∈ [ConvState.settingPaymentDate, ConvState.editingPaymentDate] →
      parsePaymentDate text = none →
      (handleMessage b chatId text).1 = b ∧ (handleMessage b chatId text).2 ≠ []) := by
  constructor
  · intro b chatId text st hst hmem hbad
    simp only [List.mem_cons, List.not_mem_nil, or_false] at hmem
    rcases hmem with rfl | rfl | rfl | rfl | rfl <;>
      · unfold handleMessage
        rw [hst]
        dsimp only [Option.getD]
        rcases hbad with hnone | ⟨a, ha, hle⟩
        · rw [hnone]
          exact ⟨rfl, by simp⟩
        · rw [ha]
          dsimp only
          rw [if_pos hle]
          exact ⟨rfl, by simp⟩
  · intro b chatId text st hst hmem hnone
    simp only [List.mem_cons, List.not_mem_nil, or_false] at hmem
    rcases hmem with rfl | rfl <;>
      · unfold handleMessage
        rw [hst]
        dsimp only [Option.getD]
        rw [hnone]
        exact ⟨rfl, by simp⟩

/-- Witness for C8: the unparseable amount "abc" and the unparseable
date "soon" change nothing and are answered with a prompt. -/
theorem spec_c8_witness :
    ((handleMessage c8Bot 0 "abc").1 = c8Bot ∧ (handleMessage c8Bot 0 "abc").2 ≠ []) ∧
    ((handleMessage c8BotDate 0 "soon").1 = c8BotDate ∧
      (handleMessage c8BotDate 0 "soon").2 ≠ []) :=
  ⟨spec_c8.1 c8Bot 0 "abc" .addingDebtAmount (by decide) (by decide) (Or.inl (by decide)),
   spec_c8.2 c8BotDate 0 "soon" .settingPaymentDate (by decide) (by decide) (by decide)⟩

/-- C9: payment-date input is parsed by trying exactly the eight
day-month-year layouts (2- or 4-digit year, dot or dash separator) in
their fixed source order with the first success winning; in both the
set and edit payment-date states a date is stored via the payment-date
update exactly when some layout matches (returning the chat to the Idle
baseline), and otherwise a format hint is emitted with the whole state
unchanged. -/
theorem spec_c9 :
    dateFormats.length = 8 ∧
    (∀ s : String, parsePaymentDate s =
      (match tryParseDate ⟨true, '.', true⟩ s with
       | some t => some t
       | none =>
         match tryParseDate ⟨true, '.', false⟩ s with
         | some t => some t
         | none =>
           match tryParseDate ⟨false, '.', true⟩ s with
           | some t => some t
           | none =>
             match tryParseDate ⟨false, '.', false⟩ s with
             | some t => some t
             | none =>
               match tryParseDate ⟨true, '-', true⟩ s with
               | some t => some t
               | none =>
                 match tryParseDate ⟨true, '-', false⟩ s with
                 | some t => some t
                 | none =>
                   match tryParseDate ⟨false, '-', true⟩ s with
                   | some t => some t
                   | none => tryParseDate ⟨false, '-', false⟩ s)) ∧
    (∀ s : String,
      (parsePaymentDate s).isSome ↔ ∃ f ∈ dateFormats, (tryParseDate f s).isSome) ∧
    (∀ (b : BotState) (chatId : Int) (text : String) (st : ConvState),
      mapGet b.userStates chatId = some st →
      (st = ConvState.settingPaymentDate ∨ st = ConvState.editingPaymentDate) →
      (parsePaymentDate text = none → (handleMessage b chatId text).1 = b ∧
        (handleMessage b chatId text).2 = [.invalidDateFormat]) ∧
      (∀ t, parsePaymentDate text = some t →
        ((handleMessage b chatId text).1.store
          = updateDebtorPaymentDate b.store
              ((mapGet b.currentDebtors chatId).getD defaultDebtor).id t) ∧
        mapGet ((handleMessage b chatId text).1).userStates chatId = none)) := by
  refine ⟨rfl, ?_, ?_, ?_⟩
  · intro s
    simp only [parsePaymentDate, dateFormats, List.findSome?]
    cases tryParseDate ⟨true, '.', true⟩ s with
    | some t => rfl
    | none =>
    cases tryParseDate ⟨true, '.', false⟩ s with
    | some t => rfl
    | none =>
    cases tryParseDate ⟨false, '.', true⟩ s with
    | some t => rfl
    | none =>
    cases tryParseDate ⟨false, '.', false⟩ s with
    | some t => rfl
    | none =>
    cases tryParseDate ⟨true, '-', true⟩ s with
    | some t => rfl
    | none =>
    cases tryParseDate ⟨true, '-', false⟩ s with
    | some t => rfl
    | none =>
    cases tryParseDate ⟨false, '-', true⟩ s with
    | some t => rfl
    | none =>
    cases tryParseDate ⟨false, '-', false⟩ s with
    | some t => rfl
    | none => rfl
  · intro s
    rw [Option.isSome_iff_ne_none, Ne, parsePaymentDate, List.findSome?_eq_none_iff]
    push_neg
    constructor
    · rintro ⟨f, hf, hsome⟩
      exact ⟨f, hf, Option.isSome_iff_ne_none.mpr hsome⟩
    · rintro ⟨f, hf, hsome⟩
      exact ⟨f, hf, Option.isSome_iff_ne_none.mp hsome⟩
  · intro b chatId text st hst hvar
    rcases hvar with rfl | rfl <;>
      · constructor
        · intro hnone
          unfold handleMessage
          rw [hst]
          dsimp only [Option.getD]
          rw [hnone]
          exact ⟨rfl, rfl⟩
        · intro t ht
          unfold handleMessage
          rw [hst]
          dsimp only [Option.getD]
          rw [ht]
          dsimp only
          refine ⟨?_, mapGet_del_self _ chatId⟩
          rw [clearUserState_store, showDebtorDetails_store]

/-- Witness for C9: "31.12.2024" is accepted and stored for the focused
debtor, the chat returns to Idle; "never" matches no layout and changes
nothing. -/
theorem spec_c9_witness :
    ((handleMessage c9Bot 0 "31.12.2024").1.store
      = updateDebtorPaymentDate c9Bot.store 1 ⟨2024, 12, 31⟩) ∧
    mapGet ((handleMessage c9Bot 0 "31.12.2024").1).userStates 0 = none ∧
    (handleMessage c9Bot 0 "never").1 = c9Bot ∧
    (handleMessage c9Bot 0 "never").2 = [.invalidDateFormat] := by
  have hok := (spec_c9.2.2.2 c9Bot 0 "31.12.2024" .settingPaymentDate (by decide)
    (Or.inl rfl)).2 ⟨2024, 12, 31⟩ (by decide)
  have hbad := (spec_c9.2.2.2 c9Bot 0 "never" .settingPaymentDate (by decide)
    (Or.inl rfl)).1 (by decide)
  exact ⟨hok.1, hok.2, hbad.1, hbad.2⟩

/-- C10: after a select-debtor press for an existing debtor, the chat's
conversation state is the Idle baseline (no userStates entry) yet the
chat retains the re-fetched debtor as its focused debtor; the subsequent
add-debt-to-existing, delete-debtor and payment-date/amount button
presses all operate on that retained focus (prompts name it, deletion
targets its id, the payment states are entered for it).  Returning to
Idle therefore does not clear the focused debtor. -/
theorem spec_c10 (b : BotState) (chatId : Int) (debtorId : Nat) (debtor : Debtor)
    (hfind : getDebtorByID b.store debtorId = some debtor) :
    mapGet (c10After b chatId debtorId).userStates chatId = none ∧
    mapGet (c10After b chatId debtorId).currentDebtors chatId = some debtor ∧
    handleCallbackQuery (c10After b chatId debtorId) chatId .addDebtToExisting
      = ({ c10After b chatId debtorId with
             userStates :=
               mapSet (c10After b chatId debtorId).userStates chatId .addingDebtReason },
         [.promptDebtReason debtor.name]) ∧
    handleCallbackQuery (c10After b chatId debtorId) chatId .deleteDebtorBtn
      = ({ c10After b chatId debtorId with
             userStates :=
               mapSet (c10After b chatId debtorId).userStates chatId .confirmingDeleteDebtor },
         [.confirmDeleteDebtor debtor.name]) ∧
    (handleCallbackQuery (c10After b chatId debtorId) chatId .confirmDeleteDebtorBtn).1.store
      = deleteDebtor b.store debtor.id ∧
    (handleCallbackQuery (c10After b chatId debtorId) chatId .setPaymentDateBtn).1
      = { c10After b chatId debtorId with
            userStates :=
              mapSet (c10After b chatId debtorId).userStates chatId .settingPaymentDate } ∧
    (handleCallbackQuery (c10After b chatId debtorId) chatId .setPaymentAmountBtn).1
      = { c10After b chatId debtorId with
            userStates :=
              mapSet (c10After b chatId debtorId).userStates chatId .settingPaymentAmount } := by
  have hb1 : c10After b chatId debtorId
      = { store := b.store,
          userStates := mapDel b.userStates chatId,
          currentDebtors :=
            mapSet (mapDel (mapSet b.currentDebtors chatId debtor) chatId) chatId debtor,
          selectedDebts := mapDel b.selectedDebts chatId } := by
    unfold c10After handleCallbackQuery
    dsimp only
    rw [hfind]
    unfold clearUserState showDebtorDetails
    dsimp only
    rw [hfind]
  have hcur : mapGet (c10After b chatId debtorId).currentDebtors chatId = some debtor := by
    rw [hb1]
    exact mapGet_set_self _ chatId debtor
  have husers : mapGet (c10After b chatId debtorId).userStates chatId = none := by
    rw [hb1]
    exact mapGet_del_self _ chatId
  refine ⟨husers, hcur, ?_, ?_, ?_, ?_, ?_⟩
  · unfold handleCallbackQuery
    dsimp only
    rw [hcur]
    rfl
  · unfold handleCallbackQuery
    dsimp only
    rw [hcur]
    rfl
  · unfold handleCallbackQuery
    dsimp only
    rw [hcur, clearUserState_store]
    dsimp only [Option.getD]
    rw [hb1]
  · rfl
  · rfl

/-- Witness for C10 at a concrete state: chat 5 selects debtor 1. -/
theorem spec_c10_witness :
    mapGet (c10After c10Bot 5 1).userStates 5 = none ∧
    mapGet (c10After c10Bot 5 1).currentDebtors 5 = some ⟨1, "Alex", 0, none, none⟩ ∧
    handleCallbackQuery (c10After c10Bot 5 1) 5 .addDebtToExisting
      = ({ c10After c10Bot 5 1 with
             userStates := mapSet (c10After c10Bot 5 1).userStates 5 .addingDebtReason },
         [.promptDebtReason "Alex"]) ∧
    handleCallbackQuery (c10After c10Bot 5 1) 5 .deleteDebtorBtn
      = ({ c10After c10Bot 5 1 with
             userStates := mapSet (c10After c10Bot 5 1).userStates 5 .confirmingDeleteDebtor },
         [.confirmDeleteDebtor "Alex"]) ∧
    (handleCallbackQuery (c10After c10Bot 5 1) 5 .confirmDeleteDebtorBtn).1.store
      = deleteDebtor c10Bot.store 1 ∧
    (handleCallbackQuery (c10After c10Bot 5 1) 5 .setPaymentDateBtn).1
      = { c10After c10Bot 5 1 with
            userStates := mapSet (c10After c10Bot 5 1).userStates 5 .settingPaymentDate } ∧
    (handleCallbackQuery (c10After c10Bot 5 1) 5 .setPaymentAmountBtn).1
      = { c10After c10Bot 5 1 with
            userStates := mapSet (c10After c10Bot 5 1).userStates 5 .settingPaymentAmount } :=
  spec_c10 c10Bot 5 1 ⟨1, "Alex", 0, none, none⟩ (by decide)

end DebtBot
